import Mathlib

/-!
# SimpleReactApp: the result cache and the sorted table of `src/App.js`

A shallow embedding of the stateful part of `src/App.js` (the `App` component, the
`SORTS` table and the sort/reverse step of `Table`), followed by theorems about it.

Conventions of the embedding.

* `this.state` is the record `State`; the component instance is `App`, the state plus
  the instance field `_isMounted`.
* A handler is a function from the instance to a `Step`: the instance once the handler's
  `setState` calls are applied, the transport requests it issued, and the exception it
  threw, if any.  `setState` calls made before a throw stay applied.
* `axios.get(...)` is the emission of a `Request`; its two continuations are the separate
  functions `fetchResolved` and `fetchRejected`, run when the response arrives.
* The `results` object is a map from own property names to entries; `null` is `none`.
  It is a plain object, so reading `results[key]` for a key that is not an own property
  finds the properties inherited from `Object.prototype` (`getProperty`).
* `setState` applies its update.  React drops the update of a component that is no
  longer mounted; the handlers run on a mounted instance only, and for the success
  continuation of a fetch, which can run after teardown, `respond` applies that rule.
* Numbers of the remote API (`points`, `num_comments`, `page`) are integers.
* Arrays are JavaScript references.  Where the source reverses an array in place, the
  embedding records which array was changed (`ArrayRef.sameRef`, `TableOut.list`).
-/

namespace SimpleReactApp

/-! ## Data model -/

/-- Value of an optional field of a hit, as the sort comparator of lodash tells them
apart: a proper value, `null`, or `undefined` (field absent). -/
inductive Field (α : Type) where
  | val (a : α)
  | null
  | undefined
  deriving DecidableEq, Repr

/-- One search result, with the fields named in `Table.propTypes`. -/
structure Hit where
  objectID : String
  title : Field String
  url : Field String
  author : Field String
  num_comments : Field Int
  points : Field Int
  deriving DecidableEq, Repr

/-- The shape `{hits, page}`: both the `data` of a transport response and one entry of
`state.results`. -/
structure ResultPage where
  hits : List Hit
  page : Nat
  deriving DecidableEq, Repr

/-- The `results` object once it is not `null`: own property name to entry. -/
abbrev Results := String → Option ResultPage

/-- The keys of the `SORTS` table. -/
inductive SortKey where
  | NONE
  | TITLE
  | AUTHOR
  | COMMENTS
  | POINTS
  deriving DecidableEq, Repr

/-- The value a rejected transport promise carries. -/
structure JsError where
  message : String
  deriving DecidableEq, Repr

/-- Exceptions the handlers themselves can throw. -/
inductive JsException where
  | TypeError
  deriving DecidableEq, Repr

/-- The exception as the value a `catch` handler receives; of its message only the kind
is kept, the text being the engine's. -/
def JsException.toError (e : JsException) : JsError :=
  match e with
  | JsException.TypeError => { message := "TypeError" }

/-- The record `this.state`, lines 32 to 40. -/
structure State where
  results : Option Results
  searchKey : String
  searchTerm : String
  error : Option JsError
  isLoading : Bool
  sortKey : SortKey
  isSortReverse : Bool

/-- The component instance: `this.state` and the field `_isMounted` (line 28). -/
structure App where
  state : State
  _isMounted : Bool

/-- One call `axios.get` of `fetchSearchTopStories`: the term and the page requested. -/
structure Request where
  searchTerm : String
  page : Nat
  deriving DecidableEq, Repr

/-- What running a handler gives: the instance afterwards, the transport requests issued,
and the exception thrown, if any. -/
structure Step where
  app : App
  requests : List Request
  thrown : Option JsException

def DEFAULT_QUERY : String := "redux"

def DEFAULT_HPP : String := "100"

def PATH_BASE : String := "https://hn.algolia.com/api/v1"

def PATH_SEARCH : String := "/search"

def PARAM_SEARCH : String := "query="

def PARAM_PAGE : String := "page="

def PARAM_HPP : String := "hitsPerPage="

/-- The address built by the template string of lines 79 and 80. -/
def Request.url (r : Request) : String :=
  PATH_BASE ++ PATH_SEARCH ++ "?" ++ PARAM_SEARCH ++ r.searchTerm ++ "&" ++ PARAM_PAGE ++
    toString r.page ++ "&" ++ PARAM_HPP ++ DEFAULT_HPP

/-! ## The results object -/

/-- The object spread `{...results}`: spreading `null` gives the empty object. -/
def spread (results : Option Results) : Results :=
  match results with
  | some r => r
  | none => fun _ => none

/-- The object literal `{...results, [key]: entry}`. -/
def setEntry (results : Option Results) (key : String) (entry : ResultPage) : Results :=
  fun k => if k = key then some entry else spread results k

/-- The entry stored under `key` as an own property of `results`, if any. -/
def lookup (results : Option Results) (key : String) : Option ResultPage :=
  match results with
  | some r => r key
  | none => none

/-- The property names every plain object inherits from `Object.prototype`. -/
def inheritedNames : List String :=
  ["constructor", "__defineGetter__", "__defineSetter__", "hasOwnProperty",
    "__lookupGetter__", "__lookupSetter__", "isPrototypeOf", "propertyIsEnumerable",
    "toString", "valueOf", "__proto__", "toLocaleString"]

/-- The value of the expression `results[key]` on an object: an own entry, an inherited
member of `Object.prototype` (a function or object: truthy, without `hits` or `page`), or
`undefined`. -/
inductive Property where
  | entry (e : ResultPage)
  | inherited
  | undefined
  deriving DecidableEq, Repr

/-- The property read `results[key]`: own properties shadow the inherited ones. -/
def getProperty (r : Results) (key : String) : Property :=
  match r key with
  | some e => Property.entry e
  | none => if key ∈ inheritedNames then Property.inherited else Property.undefined

/-! ## The component `App` -/

/-- The state set by the constructor, lines 30 to 40; `_isMounted` starts `false`. -/
def App.constructor : App :=
  { state :=
      { results := none
        searchKey := ""
        searchTerm := DEFAULT_QUERY
        error := none
        isLoading := false
        sortKey := SortKey.NONE
        isSortReverse := false }
    _isMounted := false }

/-- Lines 51 to 53: `!this.state.results[searchTerm]`.  Reading a property of `null`
throws a `TypeError`; an entry and an inherited member are both truthy. -/
def needsToSearchTopStories (s : State) (searchTerm : String) : Except JsException Bool :=
  match s.results with
  | none => Except.error JsException.TypeError
  | some r =>
    match getProperty r searchTerm with
    | Property.entry _ => Except.ok false
    | Property.inherited => Except.ok false
    | Property.undefined => Except.ok true

/-- Lines 55 to 75.  The key written is `searchKey` as read from the state when the
continuation runs.  `oldHits` is `results[searchKey].hits` when `results` is an object
and `results[searchKey]` is truthy: the hits of an own entry, `undefined` (here `none`)
for an inherited member; it is `[]` otherwise.  Spreading `undefined` into the array
literal of lines 61 to 64 throws a `TypeError`, before the `setState`. -/
def setSearchTopStories (s : State) (result : ResultPage) : Except JsException State :=
  let searchKey := s.searchKey
  let results := s.results
  let oldHits : Option (List Hit) :=
    match results with
    | none => some []
    | some r =>
      match getProperty r searchKey with
      | Property.entry entry => some entry.hits
      | Property.inherited => none
      | Property.undefined => some []
  match oldHits with
  | none => Except.error JsException.TypeError
  | some oldHits =>
    let updatedHits := oldHits ++ result.hits
    Except.ok { s with
      results := some (setEntry results searchKey
        { hits := updatedHits, page := result.page })
      isLoading := false }

/-- Lines 77 to 83, up to the call of the transport: `isLoading` is set and one request
is issued.  The default `page = 0` of the source is passed explicitly by the callers. -/
def fetchSearchTopStories (a : App) (searchTerm : String) (page : Nat) : Step :=
  { app := { a with state := { a.state with isLoading := true } }
    requests := [{ searchTerm := searchTerm, page := page }]
    thrown := none }

/-- Line 82, the failure continuation `error => this._isMounted && this.setState({error})`. -/
def fetchRejected (a : App) (error : JsError) : App :=
  if a._isMounted then { a with state := { a.state with error := some error } } else a

/-- Lines 81 and 82 on a successful response: `.then(result =>
this.setSearchTopStories(result.data))`, and, `.catch` being chained after `.then`, the
failure continuation on the exception when `setSearchTopStories` throws. -/
def fetchResolved (a : App) (result : ResultPage) : App :=
  match setSearchTopStories a.state result with
  | Except.ok s => { a with state := s }
  | Except.error e => fetchRejected a e.toError

/-- The success continuation as it takes effect: on a mounted instance `fetchResolved`;
after teardown React drops the state update, and the failure handler, should the
continuation throw, is stopped by its own guard, so nothing changes. -/
def respond (a : App) (result : ResultPage) : App :=
  if a._isMounted then fetchResolved a result else a

/-- Lines 85 to 87. -/
def onSearchChange (a : App) (value : String) : App :=
  { a with state := { a.state with searchTerm := value } }

/-- Lines 89 to 98.  `setState({searchKey})` precedes the call of
`needsToSearchTopStories`, so it stays applied when that call throws. -/
def onSearchSubmit (a : App) : Step :=
  let searchTerm := a.state.searchTerm
  let a1 : App := { a with state := { a.state with searchKey := searchTerm } }
  match needsToSearchTopStories a.state searchTerm with
  | Except.error e => { app := a1, requests := [], thrown := some e }
  | Except.ok true => fetchSearchTopStories a1 searchTerm 0
  | Except.ok false => { app := a1, requests := [], thrown := none }

/-- Lines 100 to 113.  `results[searchKey]` throws when `results` is `null`, the
destructuring `{hits, page} = undefined` throws when there is no such property, and for
an inherited member `hits` is `undefined` and `hits.filter` throws; all happen before the
only `setState`.  So the handler goes through exactly when the key is an own entry. -/
def onDismiss (a : App) (id : String) : Step :=
  let searchKey := a.state.searchKey
  match a.state.results with
  | none => { app := a, requests := [], thrown := some JsException.TypeError }
  | some r =>
    match r searchKey with
    | none => { app := a, requests := [], thrown := some JsException.TypeError }
    | some entry =>
      let updatedHits := entry.hits.filter (fun item => item.objectID != id)
      { app := { a with state := { a.state with
                  results := some (setEntry (some r) searchKey
                    { hits := updatedHits, page := entry.page }) } }
        requests := []
        thrown := none }

/-- Lines 115 to 118. -/
def onSort (a : App) (sortKey : SortKey) : Step :=
  let isSortReverse := (a.state.sortKey == sortKey) && !a.state.isSortReverse
  { app := { a with state := { a.state with sortKey := sortKey, isSortReverse := isSortReverse } }
    requests := []
    thrown := none }

/-- Lines 120 to 126. -/
def componentDidMount (a : App) : Step :=
  let a1 : App := { a with _isMounted := true }
  let searchTerm := a1.state.searchTerm
  fetchSearchTopStories { a1 with state := { a1.state with searchKey := searchTerm } }
    searchTerm 0

/-- Lines 128 to 130. -/
def componentWillUnmount (a : App) : App :=
  { a with _isMounted := false }

/-- Lines 143 to 147: the page of the active entry, `0` when there is none (for an
inherited member `.page` is `undefined`, and `undefined || 0` is `0`). -/
def renderPage (s : State) : Nat :=
  match lookup s.results s.searchKey with
  | some entry => entry.page
  | none => 0

/-- Line 181, the handler of the button More as built by `render`. -/
def onMore (a : App) : Step :=
  fetchSearchTopStories a a.state.searchKey (renderPage a.state + 1)

/-! ## lodash `sortBy`

`sortBy(list, field)` of lodash pairs each element with its criterion and its index,
sorts the triples with the native array sort under the comparer `compareMultiple`
(criterion first, index on ties), and projects the elements back.  The comparer is a
total order on the triples, whose indices are distinct, so the sorted array does not
depend on the sorting algorithm; `baseSortBy` uses insertion sort. -/

/-- The function `compareAscending` of lodash on field values: `1`, `-1` or `0`.  Proper
values are compared with `>` and `<`; they come before `null`, which comes before
`undefined`. -/
def compareAscending {κ : Type} [LinearOrder κ] (value other : Field κ) : Int :=
  match value, other with
  | Field.val a, Field.val b => if a > b then 1 else if a < b then -1 else 0
  | Field.val _, Field.null => -1
  | Field.val _, Field.undefined => -1
  | Field.null, Field.val _ => 1
  | Field.null, Field.null => 0
  | Field.null, Field.undefined => -1
  | Field.undefined, Field.val _ => 1
  | Field.undefined, Field.null => 1
  | Field.undefined, Field.undefined => 0

/-- The triple `{criteria, index, value}` that `baseOrderBy` of lodash sorts. -/
structure Criterion (κ : Type) where
  criteria : Field κ
  index : Nat
  value : Hit

/-- The function `compareMultiple` of lodash for one criterion and no explicit order:
the comparison of the criteria, and on a tie `object.index - other.index`. -/
def compareMultiple {κ : Type} [LinearOrder κ] (object other : Criterion κ) : Int :=
  let result := compareAscending object.criteria other.criteria
  if result ≠ 0 then result else (object.index : Int) - (other.index : Int)

/-- The order the comparer induces: `object` may stand before `other`. -/
def comesBefore {κ : Type} [LinearOrder κ] (object other : Criterion κ) : Prop :=
  compareMultiple object other ≤ 0

instance comesBefore.decidable {κ : Type} [LinearOrder κ] :
    DecidableRel (comesBefore : Criterion κ → Criterion κ → Prop) :=
  fun object other => inferInstanceAs (Decidable (compareMultiple object other ≤ 0))

/-- The function `baseSortBy` of lodash: `array.sort(comparer)`. -/
def baseSortBy {κ : Type} [LinearOrder κ] (array : List (Criterion κ)) :
    List (Criterion κ) :=
  array.insertionSort comesBefore

/-- `sortBy(list, field)` of lodash, `iteratee` reading the field; returns a new array. -/
def sortBy {κ : Type} [LinearOrder κ] (list : List Hit) (iteratee : Hit → Field κ) :
    List Hit :=
  (baseSortBy (list.enum.map
    (fun p => { criteria := iteratee p.2, index := p.1, value := p.2 }))).map
    (fun c => c.value)

/-! ## `SORTS`, `Table` and `render` -/

/-- An array returned by a function that received the array `list` by reference: its
contents, and whether it is the array `list` itself rather than a new array. -/
structure ArrayRef where
  value : List Hit
  sameRef : Bool

/-- Lines 19 to 25.  `NONE` returns its argument; the other four return the new array
made by `sortBy`, for `COMMENTS` and `POINTS` reversed in place. -/
def SORTS (sortKey : SortKey) (list : List Hit) : ArrayRef :=
  match sortKey with
  | SortKey.NONE => { value := list, sameRef := true }
  | SortKey.TITLE => { value := sortBy list (fun h => h.title), sameRef := false }
  | SortKey.AUTHOR => { value := sortBy list (fun h => h.author), sameRef := false }
  | SortKey.COMMENTS =>
    { value := (sortBy list (fun h => h.num_comments)).reverse, sameRef := false }
  | SortKey.POINTS => { value := (sortBy list (fun h => h.points)).reverse, sameRef := false }

/-- What the sort/reverse step of `Table` leaves: the rows rendered
(`reverseSortedList`) and the contents of the array `list` of the props afterwards. -/
structure TableOut where
  rows : List Hit
  list : List Hit

/-- Lines 248 to 251.  `sortedList.reverse()` reverses `sortedList` in place; when
`sortedList` is the array `list` itself, `list` is what gets reversed. -/
def Table (list : List Hit) (sortKey : SortKey) (isSortReverse : Bool) : TableOut :=
  let sortedList := SORTS sortKey list
  if isSortReverse then
    let reversed := sortedList.value.reverse
    { rows := reversed, list := if sortedList.sameRef then reversed else list }
  else
    { rows := sortedList.value, list := list }

/-- What `render` shows in place of the table, lines 166 to 177. -/
inductive View where
  | failure
  | table (rows : List Hit)
  deriving DecidableEq, Repr

/-- What `render` gives: the view, and the instance afterwards. -/
structure RenderOut where
  view : View
  app : App

/-- Lines 132 to 188, without the markup.  `list` is the array `results[searchKey].hits`
itself when the entry exists (an array is truthy even when empty), and a new empty array
otherwise (for an inherited member `.hits` is `undefined`); whatever `Table` does to
`list` in place is done to the entry. -/
def render (a : App) : RenderOut :=
  let s := a.state
  match s.error with
  | some _ => { view := View.failure, app := a }
  | none =>
    match lookup s.results s.searchKey with
    | some entry =>
      let t := Table entry.hits s.sortKey s.isSortReverse
      { view := View.table t.rows
        app := { a with state := { s with
                  results := some (setEntry s.results s.searchKey
                    { hits := t.list, page := entry.page }) } } }
    | none => { view := View.table (Table [] s.sortKey s.isSortReverse).rows, app := a }

/-! ## The session as a sequence of events -/

/-- What can happen to a component instance. -/
inductive Event where
  | mount
  | unmount
  | searchChange (value : String)
  | searchSubmit
  | dismiss (id : String)
  | sort (sortKey : SortKey)
  | more
  | resolved (result : ResultPage)
  | rejected (error : JsError)
  | rendered

/-- The instance after one event. -/
def step (a : App) (e : Event) : App :=
  match e with
  | Event.mount => (componentDidMount a).app
  | Event.unmount => componentWillUnmount a
  | Event.searchChange value => onSearchChange a value
  | Event.searchSubmit => (onSearchSubmit a).app
  | Event.dismiss id => (onDismiss a id).app
  | Event.sort sortKey => (onSort a sortKey).app
  | Event.more => (onMore a).app
  | Event.resolved result => respond a result
  | Event.rejected error => fetchRejected a error
  | Event.rendered => (render a).app

/-- The instance after a sequence of events. -/
def run (a : App) (events : List Event) : App :=
  events.foldl step a

/-- The operation `submitSearch(term)` of the specification: the input holds `term` and
the form is submitted. -/
def submitSearch (a : App) (term : String) : Step :=
  onSearchSubmit (onSearchChange a term)

/-- The operation `fetchPage(term, page)` of the specification with a successful
response: `fetchSearchTopStories`, then the success continuation on `result`. -/
def fetchPage (a : App) (term : String) (page : Nat) (result : ResultPage) : App :=
  respond (fetchSearchTopStories a term page).app result

/-- Whether the active key reads an inherited member of `results`: the cache is an
object, the key is no own entry and is one of the inherited names. -/
def readsInherited (s : State) : Bool :=
  match s.results with
  | none => false
  | some r =>
    match getProperty r s.searchKey with
    | Property.inherited => true
    | _ => false

/-- Whether the page delivers the event to the instance in its present state.  The form,
the buttons and `render` exist on the mounted instance only.  A Dismiss button exists for
each row of the table (lines 295 to 309), a Sort button for each of `TITLE`, `AUTHOR`,
`COMMENTS`, `POINTS` in the header of the table (lines 256 to 290), the button More only
while `isLoading` is false (`withLoading`, lines 194 to 197).  A response may arrive at
any time. -/
def offered (a : App) (e : Event) : Bool :=
  match e with
  | Event.mount => false
  | Event.unmount => a._isMounted
  | Event.searchChange _ => a._isMounted
  | Event.searchSubmit => a._isMounted
  | Event.dismiss id =>
    a._isMounted &&
      (match (render a).view with
       | View.table rows => rows.any (fun item => item.objectID == id)
       | View.failure => false)
  | Event.sort sortKey =>
    a._isMounted &&
      (match (render a).view with
       | View.table _ => sortKey != SortKey.NONE
       | View.failure => false)
  | Event.more => a._isMounted && !a.state.isLoading
  | Event.resolved _ => true
  | Event.rejected _ => true
  | Event.rendered => a._isMounted

/-- Whether the page delivers each event of the sequence in the state it arrives in. -/
def offeredAll (a : App) (events : List Event) : Bool :=
  match events with
  | [] => true
  | e :: rest => offered a e && offeredAll (step a e) rest

/-- The instances the page reaches: the one mounted from the constructor, and those any
event the page delivers leads to. -/
inductive Reachable : App → Prop where
  | mounted : Reachable (componentDidMount App.constructor).app
  | next (a : App) (e : Event) : Reachable a → offered a e = true → Reachable (step a e)

/-- The hits cached under `key`, the empty sequence when there is no entry. -/
def cachedHits (s : State) (key : String) : List Hit :=
  match lookup s.results key with
  | some entry => entry.hits
  | none => []

/-- Every request of a step is answered successfully with `result`: the success
continuation runs once for each. -/
def deliver (s : Step) (result : ResultPage) : App :=
  s.requests.foldl (fun acc _ => fetchResolved acc result) s.app

/-- An instance whose cache holds the one entry `entry` under `key`, which is also the
active key; everything else as set by the constructor and `componentDidMount`. -/
def appWithEntry (key : String) (entry : ResultPage) : App :=
  { state :=
      { results := some (setEntry none key entry)
        searchKey := key
        searchTerm := key
        error := none
        isLoading := false
        sortKey := SortKey.NONE
        isSortReverse := false }
    _isMounted := true }

/-- The instance `a` with the sort selection replaced by the given one. -/
def withSort (a : App) (sortKey : SortKey) (isSortReverse : Bool) : App :=
  { a with state := { a.state with sortKey := sortKey, isSortReverse := isSortReverse } }

/-- A hit with the given identifier, `num_comments` and `points`, for examples. -/
def hitWith (id : String) (comments points : Int) : Hit :=
  { objectID := id, title := Field.null, url := Field.null, author := Field.null,
    num_comments := Field.val comments, points := Field.val points }

/-- A session the page delivers after mounting: the first page of `redux` arrives, the
user clicks More, that fetch fails with `e`, and the user searches `react`. -/
def failedMoreSession (e : JsError) : List Event :=
  [Event.resolved { hits := [hitWith "A" 0 1], page := 0 }, Event.more, Event.rejected e,
    Event.searchChange "react", Event.searchSubmit]

/-- A session the page delivers after mounting: the first page of `redux` arrives with
the hits `A` and `B`, and the user clicks the Sort button of the points twice. -/
def sortedSession : List Event :=
  [Event.resolved { hits := [hitWith "A" 0 1, hitWith "B" 0 2], page := 0 },
    Event.sort SortKey.POINTS, Event.sort SortKey.POINTS]

end SimpleReactApp

namespace SimpleReactApp

/-! ## Lemmas on `sortBy` -/

/-- On numbers `compareAscending` is at most `0` exactly when the first is at most the
second. -/
theorem compareAscending_val_le (m n : Int) :
    compareAscending (Field.val m) (Field.val n) ≤ 0 ↔ m ≤ n := by
  unfold compareAscending
  simp only [gt_iff_lt]
  split_ifs <;> omega

/-- A triple may stand before another only if its criterion is not greater. -/
theorem comesBefore_criteria (x y : Criterion Int) (h : comesBefore x y) :
    compareAscending x.criteria y.criteria ≤ 0 := by
  unfold comesBefore compareMultiple at h
  simp only at h
  split_ifs at h with h0
  · exact h
  · push_neg at h0
    omega

/-- The comparer of `sortBy` is total. -/
theorem comesBefore_total (x y : Criterion Int) : comesBefore x y ∨ comesBefore y x := by
  obtain ⟨xc, xi, xv⟩ := x
  obtain ⟨yc, yi, yv⟩ := y
  unfold comesBefore compareMultiple compareAscending
  cases xc <;> cases yc <;> simp only [gt_iff_lt] <;> (try split_ifs) <;> omega

/-- The comparer of `sortBy` is transitive. -/
theorem comesBefore_trans (x y z : Criterion Int) (hxy : comesBefore x y)
    (hyz : comesBefore y z) : comesBefore x z := by
  obtain ⟨xc, xi, xv⟩ := x
  obtain ⟨yc, yi, yv⟩ := y
  obtain ⟨zc, zi, zv⟩ := z
  unfold comesBefore compareMultiple compareAscending at *
  cases xc <;> cases yc <;> cases zc <;> simp only [gt_iff_lt] at * <;>
    (try split_ifs at *) <;> omega

/-- The array `sortBy` returns holds the elements of its argument. -/
theorem sortBy_perm (list : List Hit) (iteratee : Hit → Field Int) :
    (sortBy list iteratee).Perm list := by
  unfold sortBy baseSortBy
  refine ((List.perm_insertionSort comesBefore _).map _).trans ?_
  rw [List.map_map]
  have h : ((fun c : Criterion Int => c.value) ∘
      fun p : Nat × Hit => { criteria := iteratee p.2, index := p.1, value := p.2 }) =
      Prod.snd := rfl
  rw [h, List.enum_map_snd]

/-- The array `sortBy` returns is in ascending order of the criterion. -/
theorem sortBy_pairwise (list : List Hit) (iteratee : Hit → Field Int) :
    (sortBy list iteratee).Pairwise
      (fun a b => compareAscending (iteratee a) (iteratee b) ≤ 0) := by
  unfold sortBy baseSortBy
  haveI : IsTotal (Criterion Int) comesBefore := ⟨comesBefore_total⟩
  haveI : IsTrans (Criterion Int) comesBefore := ⟨comesBefore_trans⟩
  rw [List.pairwise_map]
  have hs := List.sorted_insertionSort comesBefore (list.enum.map
    (fun p : Nat × Hit =>
      ({ criteria := iteratee p.2, index := p.1, value := p.2 } : Criterion Int)))
  refine List.Pairwise.imp_of_mem ?_ hs
  intro x y hx hy hxy
  have hmem : ∀ c : Criterion Int, c ∈ List.insertionSort comesBefore (list.enum.map
      (fun p : Nat × Hit =>
        ({ criteria := iteratee p.2, index := p.1, value := p.2 } : Criterion Int))) →
      c.criteria = iteratee c.value := by
    intro c hc
    rw [(List.perm_insertionSort comesBefore _).mem_iff] at hc
    obtain ⟨p, _, rfl⟩ := List.mem_map.1 hc
    rfl
  rw [← hmem x hx, ← hmem y hy]
  exact comesBefore_criteria x y hxy

/-- Reversing the ascending array of `sortBy` once gives a permutation in non-increasing
order of a numeric field, reversing it twice one in non-decreasing order. -/
theorem sortBy_reverse_numeric (list : List Hit) (iteratee : Hit → Field Int)
    (hnum : ∀ h ∈ list, ∃ n : Int, iteratee h = Field.val n) :
    (sortBy list iteratee).reverse.Perm list ∧
    (sortBy list iteratee).reverse.Pairwise
      (fun a b => ∃ m n : Int, iteratee a = Field.val m ∧ iteratee b = Field.val n ∧ n ≤ m) ∧
    (sortBy list iteratee).reverse.reverse.Perm list ∧
    (sortBy list iteratee).reverse.reverse.Pairwise
      (fun a b => ∃ m n : Int, iteratee a = Field.val m ∧ iteratee b = Field.val n ∧ m ≤ n) := by
  have hperm := sortBy_perm list iteratee
  have hasc : (sortBy list iteratee).Pairwise
      (fun a b => ∃ m n : Int, iteratee a = Field.val m ∧ iteratee b = Field.val n ∧ m ≤ n) := by
    refine List.Pairwise.imp_of_mem ?_ (sortBy_pairwise list iteratee)
    intro a b ha hb hab
    obtain ⟨m, hm⟩ := hnum a (hperm.mem_iff.1 ha)
    obtain ⟨n, hn⟩ := hnum b (hperm.mem_iff.1 hb)
    rw [hm, hn, compareAscending_val_le] at hab
    exact ⟨m, n, hm, hn, hab⟩
  refine ⟨(List.reverse_perm _).trans hperm, ?_, ?_, ?_⟩
  · rw [List.pairwise_reverse]
    refine hasc.imp ?_
    rintro a b ⟨m, n, hm, hn, hmn⟩
    exact ⟨n, m, hn, hm, hmn⟩
  · rw [List.reverse_reverse]
    exact hperm
  · rw [List.reverse_reverse]
    exact hasc

/-! ## Lemmas on the results object -/

/-- Reading the key just written gives the entry written. -/
theorem lookup_setEntry_same (results : Option Results) (key : String) (entry : ResultPage) :
    lookup (some (setEntry results key entry)) key = some entry := by
  simp [lookup, setEntry]

/-- Writing one key leaves the other keys as they were. -/
theorem lookup_setEntry_other (results : Option Results) (key k : String)
    (entry : ResultPage) (h : k ≠ key) :
    lookup (some (setEntry results key entry)) k = lookup results k := by
  cases results <;> simp [lookup, setEntry, spread, h]

/-! ## Lemmas on the handlers -/

/-- With a cache that is not `null`, `onSearchSubmit` throws nothing, makes the term of
the input the active key, and requests page 0 of it exactly when `results[searchTerm]` is
`undefined`: the term is neither an own entry nor an inherited name. -/
theorem onSearchSubmit_results (a : App) (r : Results) (h : a.state.results = some r) :
    (onSearchSubmit a).thrown = none ∧
    (onSearchSubmit a).app.state.searchKey = a.state.searchTerm ∧
    (onSearchSubmit a).app.state.results = a.state.results ∧
    (onSearchSubmit a).app.state.error = a.state.error ∧
    (onSearchSubmit a).app.state.sortKey = a.state.sortKey ∧
    (onSearchSubmit a).app.state.isSortReverse = a.state.isSortReverse ∧
    (getProperty r a.state.searchTerm = Property.undefined →
      (onSearchSubmit a).requests = [{ searchTerm := a.state.searchTerm, page := 0 }]) ∧
    (getProperty r a.state.searchTerm ≠ Property.undefined →
      (onSearchSubmit a).requests = []) := by
  cases hk : getProperty r a.state.searchTerm <;>
    simp [onSearchSubmit, needsToSearchTopStories, fetchSearchTopStories, h, hk]

/-- With the cache still `null`, `onSearchSubmit` throws a `TypeError` and issues no
request; the cache stays `null`. -/
theorem onSearchSubmit_null (a : App) (h : a.state.results = none) :
    (onSearchSubmit a).thrown = some JsException.TypeError ∧
    (onSearchSubmit a).requests = [] ∧
    (onSearchSubmit a).app.state.results = none ∧
    (onSearchSubmit a).app.state.error = a.state.error ∧
    (onSearchSubmit a).app.state.sortKey = a.state.sortKey ∧
    (onSearchSubmit a).app.state.isSortReverse = a.state.isSortReverse := by
  simp [onSearchSubmit, needsToSearchTopStories, h]

/-- When the active key does not read an inherited member, `setSearchTopStories` goes
through: it writes, under the active key, the hits cached there followed by the returned
ones and the returned page, and sets `isLoading` to false. -/
theorem setSearchTopStories_ok (s : State) (result : ResultPage)
    (h : readsInherited s = false) :
    setSearchTopStories s result =
      Except.ok { s with
        results := some (setEntry s.results s.searchKey
          { hits := cachedHits s s.searchKey ++ result.hits, page := result.page })
        isLoading := false } := by
  unfold readsInherited at h
  unfold setSearchTopStories cachedHits lookup
  cases hr : s.results with
  | none => simp
  | some r =>
    rw [hr] at h
    simp only at h ⊢
    unfold getProperty at h ⊢
    cases hk : r s.searchKey with
    | some e => simp
    | none =>
      rw [hk] at h
      simp only at h ⊢
      split_ifs at h ⊢ with hin
      rfl

/-- When the active key reads an inherited member, `setSearchTopStories` throws. -/
theorem setSearchTopStories_inherited (s : State) (result : ResultPage)
    (h : readsInherited s = true) :
    setSearchTopStories s result = Except.error JsException.TypeError := by
  unfold readsInherited at h
  unfold setSearchTopStories
  cases hr : s.results with
  | none => rw [hr] at h; simp at h
  | some r =>
    rw [hr] at h
    simp only at h ⊢
    cases hk : getProperty r s.searchKey with
    | entry e => rw [hk] at h; simp at h
    | inherited => rfl
    | undefined => rw [hk] at h; simp at h

/-- The success continuation never clears `error`, and never touches the sort selection
or `_isMounted`. -/
theorem fetchResolved_frame (a : App) (result : ResultPage) :
    (a.state.error ≠ none → (fetchResolved a result).state.error ≠ none) ∧
    (fetchResolved a result).state.sortKey = a.state.sortKey ∧
    (fetchResolved a result).state.isSortReverse = a.state.isSortReverse ∧
    (fetchResolved a result)._isMounted = a._isMounted := by
  cases hi : readsInherited a.state with
  | false =>
    simp [fetchResolved, setSearchTopStories_ok a.state result hi]
  | true =>
    cases hm : a._isMounted <;>
      simp [fetchResolved, setSearchTopStories_inherited a.state result hi, fetchRejected, hm]

/-- No event clears `error`. -/
theorem step_error (a : App) (e : Event) (h : a.state.error ≠ none) :
    (step a e).state.error ≠ none := by
  cases e with
  | mount => exact h
  | unmount => exact h
  | searchChange value => exact h
  | searchSubmit =>
    cases hr : a.state.results with
    | none => rw [step, (onSearchSubmit_null a hr).2.2.2.1]; exact h
    | some r => rw [step, (onSearchSubmit_results a r hr).2.2.2.1]; exact h
  | dismiss id =>
    simp only [step, onDismiss]
    split
    · exact h
    · split
      · exact h
      · exact h
  | sort sortKey => exact h
  | more => exact h
  | resolved result =>
    simp only [step, respond]
    split
    · exact (fetchResolved_frame a result).1 h
    · exact h
  | rejected error =>
    simp only [step, fetchRejected]
    split
    · simp
    · exact h
  | rendered =>
    simp only [step, render]
    split
    · exact h
    · rename_i hnone
      exact absurd hnone h

/-- No sequence of events clears `error`. -/
theorem run_error (events : List Event) (a : App) (h : a.state.error ≠ none) :
    (run a events).state.error ≠ none := by
  induction events generalizing a with
  | nil => exact h
  | cons e rest ih => exact ih (step a e) (step_error a e h)

/-- While `error` is set, `render` shows the failure message. -/
theorem render_error (a : App) (h : a.state.error ≠ none) : (render a).view = View.failure := by
  cases he : a.state.error with
  | none => exact absurd he h
  | some e => simp [render, he]

/-- Except for the sort key `NONE` with `isSortReverse` true, the sort/reverse step of
`Table` leaves the array `list` it received as it was. -/
theorem Table_list_unchanged (list : List Hit) (sortKey : SortKey) (isSortReverse : Bool)
    (h : sortKey ≠ SortKey.NONE ∨ isSortReverse = false) :
    (Table list sortKey isSortReverse).list = list := by
  cases isSortReverse with
  | false => rfl
  | true =>
    cases sortKey with
    | NONE => simp at h
    | TITLE => rfl
    | AUTHOR => rfl
    | COMMENTS => rfl
    | POINTS => rfl

/-- Of an empty array the table has no rows, whatever the sort selection. -/
theorem Table_nil_rows (sortKey : SortKey) (isSortReverse : Bool) :
    (Table [] sortKey isSortReverse).rows = [] := by
  cases sortKey <;> cases isSortReverse <;> rfl

/-- The instance reached by a sequence of events the page delivers is reachable. -/
theorem reachable_run (events : List Event) (a : App) (ha : Reachable a)
    (h : offeredAll a events = true) : Reachable (run a events) := by
  induction events generalizing a with
  | nil => exact ha
  | cons e rest ih =>
    simp only [offeredAll, Bool.and_eq_true] at h
    exact ih (step a e) (Reachable.next a e ha h.1) h.2

/-- An event other than a click on a Sort button leaves the sort selection as it was. -/
theorem step_sort_frame (a : App) (e : Event) (h : ∀ k, e ≠ Event.sort k) :
    (step a e).state.sortKey = a.state.sortKey ∧
    (step a e).state.isSortReverse = a.state.isSortReverse := by
  cases e with
  | mount => exact ⟨rfl, rfl⟩
  | unmount => exact ⟨rfl, rfl⟩
  | searchChange value => exact ⟨rfl, rfl⟩
  | searchSubmit =>
    cases hr : a.state.results with
    | none =>
      exact ⟨(onSearchSubmit_null a hr).2.2.2.2.1, (onSearchSubmit_null a hr).2.2.2.2.2⟩
    | some r =>
      exact ⟨(onSearchSubmit_results a r hr).2.2.2.2.1,
        (onSearchSubmit_results a r hr).2.2.2.2.2.1⟩
  | dismiss id =>
    simp only [step, onDismiss]
    split
    · exact ⟨rfl, rfl⟩
    · split
      · exact ⟨rfl, rfl⟩
      · exact ⟨rfl, rfl⟩
  | sort sortKey => exact absurd rfl (h sortKey)
  | more => exact ⟨rfl, rfl⟩
  | resolved result =>
    simp only [step, respond]
    split
    · exact ⟨(fetchResolved_frame a result).2.1, (fetchResolved_frame a result).2.2.1⟩
    · exact ⟨rfl, rfl⟩
  | rejected error =>
    simp only [step, fetchRejected]
    split
    · exact ⟨rfl, rfl⟩
    · exact ⟨rfl, rfl⟩
  | rendered =>
    simp only [step, render]
    split
    · exact ⟨rfl, rfl⟩
    · split
      · exact ⟨rfl, rfl⟩
      · exact ⟨rfl, rfl⟩

/-- In every instance the page reaches, the sort key `NONE` comes with `isSortReverse`
false: the Sort buttons never pass `NONE`. -/
theorem reachable_sort (a : App) (h : Reachable a) :
    a.state.sortKey = SortKey.NONE → a.state.isSortReverse = false := by
  induction h with
  | mounted => intro _; rfl
  | next a e _ hoff ih =>
    by_cases hs : ∃ k, e = Event.sort k
    · obtain ⟨k, rfl⟩ := hs
      intro hk
      have hne : k ≠ SortKey.NONE := by
        simp only [offered, Bool.and_eq_true] at hoff
        have h2 := hoff.2
        split at h2
        · simpa using h2
        · simp at h2
      exact absurd hk hne
    · have hf := step_sort_frame a e (fun k hk => hs ⟨k, hk⟩)
      rw [hf.1, hf.2]
      exact ih

/-- On a mounted instance whose active key does not read an inherited member,
`fetchPage` with a successful response writes the entry of the active key and clears
`isLoading`, and changes nothing else. -/
theorem fetchPage_eq (b : App) (t : String) (p : Nat) (r : ResultPage)
    (hb : b._isMounted = true) (hi : readsInherited b.state = false) :
    fetchPage b t p r =
      { b with state := { b.state with
          results := some (setEntry b.state.results b.state.searchKey
            { hits := cachedHits b.state b.state.searchKey ++ r.hits, page := r.page })
          isLoading := false } } := by
  obtain ⟨bs, bm⟩ := b
  simp only at hb hi
  subst hb
  have hi2 : readsInherited
      (fetchSearchTopStories { state := bs, _isMounted := true } t p).app.state = false := hi
  simp only [fetchPage, respond, fetchResolved, setSearchTopStories_ok _ r hi2]
  rfl

/-- When the active key reads an inherited member (the user searched `constructor`, say,
and clicks More), the success continuation throws before its `setState`, and the failure
handler records the exception: on a mounted instance `error` is set, and the cache and
`isLoading` are as they were. -/
theorem fetchResolved_inherited (a : App) (result : ResultPage) (hm : a._isMounted = true)
    (hk : readsInherited a.state = true) :
    fetchResolved a result =
      { a with state := { a.state with error := some JsException.TypeError.toError } } := by
  simp [fetchResolved, setSearchTopStories_inherited a.state result hk, fetchRejected, hm]

/-! ## The claims -/

/-- C7: for hits that all carry a numeric `points` field (respectively `num_comments`
field), the rows computed by `Table` with sort key `POINTS` (respectively `COMMENTS`) are
a permutation of the input in non-increasing order of that field when `isSortReverse` is
false, and a permutation of the input in non-decreasing order when it is true. -/
theorem Table_points_comments_order (list : List Hit) :
    ((∀ h ∈ list, ∃ n : Int, h.points = Field.val n) →
      (Table list SortKey.POINTS false).rows.Perm list ∧
      (Table list SortKey.POINTS false).rows.Pairwise
        (fun a b => ∃ m n : Int, a.points = Field.val m ∧ b.points = Field.val n ∧ n ≤ m) ∧
      (Table list SortKey.POINTS true).rows.Perm list ∧
      (Table list SortKey.POINTS true).rows.Pairwise
        (fun a b => ∃ m n : Int, a.points = Field.val m ∧ b.points = Field.val n ∧ m ≤ n)) ∧
    ((∀ h ∈ list, ∃ n : Int, h.num_comments = Field.val n) →
      (Table list SortKey.COMMENTS false).rows.Perm list ∧
      (Table list SortKey.COMMENTS false).rows.Pairwise
        (fun a b => ∃ m n : Int,
          a.num_comments = Field.val m ∧ b.num_comments = Field.val n ∧ n ≤ m) ∧
      (Table list SortKey.COMMENTS true).rows.Perm list ∧
      (Table list SortKey.COMMENTS true).rows.Pairwise
        (fun a b => ∃ m n : Int,
          a.num_comments = Field.val m ∧ b.num_comments = Field.val n ∧ m ≤ n)) :=
  ⟨fun h => sortBy_reverse_numeric list (fun x => x.points) h,
   fun h => sortBy_reverse_numeric list (fun x => x.num_comments) h⟩

/-- C7 at the hits with points `1, 5, 3` (and comments `2, 0, 7`): the rows are in the
order `5, 3, 1`, reversed `1, 3, 5`, and the general statement applies. -/
theorem Table_points_comments_order_witness :
    (∀ h ∈ [hitWith "a" 2 1, hitWith "b" 0 5, hitWith "c" 7 3],
      ∃ n : Int, h.points = Field.val n) ∧
    (∀ h ∈ [hitWith "a" 2 1, hitWith "b" 0 5, hitWith "c" 7 3],
      ∃ n : Int, h.num_comments = Field.val n) ∧
    (Table [hitWith "a" 2 1, hitWith "b" 0 5, hitWith "c" 7 3] SortKey.POINTS false).rows =
      [hitWith "b" 0 5, hitWith "c" 7 3, hitWith "a" 2 1] ∧
    (Table [hitWith "a" 2 1, hitWith "b" 0 5, hitWith "c" 7 3] SortKey.POINTS true).rows =
      [hitWith "a" 2 1, hitWith "c" 7 3, hitWith "b" 0 5] ∧
    (Table [hitWith "a" 2 1, hitWith "b" 0 5, hitWith "c" 7 3] SortKey.COMMENTS false).rows =
      [hitWith "c" 7 3, hitWith "a" 2 1, hitWith "b" 0 5] ∧
    (Table [hitWith "a" 2 1, hitWith "b" 0 5, hitWith "c" 7 3] SortKey.POINTS false).rows.Perm
      [hitWith "a" 2 1, hitWith "b" 0 5, hitWith "c" 7 3] ∧
    (Table [hitWith "a" 2 1, hitWith "b" 0 5, hitWith "c" 7 3]
      SortKey.COMMENTS true).rows.Pairwise
        (fun a b => ∃ m n : Int,
          a.num_comments = Field.val m ∧ b.num_comments = Field.val n ∧ m ≤ n) :=
  have hp : ∀ h ∈ [hitWith "a" 2 1, hitWith "b" 0 5, hitWith "c" 7 3],
      ∃ n : Int, h.points = Field.val n := by
    intro h hh
    simp only [List.mem_cons, List.mem_singleton, List.not_mem_nil, or_false] at hh
    rcases hh with rfl | rfl | rfl <;> exact ⟨_, rfl⟩
  have hc : ∀ h ∈ [hitWith "a" 2 1, hitWith "b" 0 5, hitWith "c" 7 3],
      ∃ n : Int, h.num_comments = Field.val n := by
    intro h hh
    simp only [List.mem_cons, List.mem_singleton, List.not_mem_nil, or_false] at hh
    rcases hh with rfl | rfl | rfl <;> exact ⟨_, rfl⟩
  ⟨hp, hc, by rfl, by rfl, by rfl,
    ((Table_points_comments_order _).1 hp).1,
    ((Table_points_comments_order _).2 hc).2.2.2⟩

/-- C6: `onSort` with key `k` sets `sortKey` to `k`; `isSortReverse` becomes the negation
of its previous value when `k` was already the active sort key and `false` otherwise;
every other field of the state, the cache and `_isMounted` are unchanged, no request is
issued and nothing is thrown.  From `(NONE, false)` the calls with `TITLE`, `TITLE`,
`AUTHOR` give `(TITLE, false)`, `(TITLE, true)`, `(AUTHOR, false)`. -/
theorem onSort_toggle (a : App) (k : SortKey) :
    (onSort a k).app.state.sortKey = k ∧
    (a.state.sortKey = k → (onSort a k).app.state.isSortReverse = !a.state.isSortReverse) ∧
    (a.state.sortKey ≠ k → (onSort a k).app.state.isSortReverse = false) ∧
    (onSort a k).app.state.results = a.state.results ∧
    (onSort a k).app.state.searchKey = a.state.searchKey ∧
    (onSort a k).app.state.searchTerm = a.state.searchTerm ∧
    (onSort a k).app.state.error = a.state.error ∧
    (onSort a k).app.state.isLoading = a.state.isLoading ∧
    (onSort a k).app._isMounted = a._isMounted ∧
    (onSort a k).requests = [] ∧
    (onSort a k).thrown = none ∧
    (a.state.sortKey = SortKey.NONE → a.state.isSortReverse = false →
      ((onSort a SortKey.TITLE).app.state.sortKey = SortKey.TITLE ∧
        (onSort a SortKey.TITLE).app.state.isSortReverse = false) ∧
      ((onSort (onSort a SortKey.TITLE).app SortKey.TITLE).app.state.sortKey = SortKey.TITLE ∧
        (onSort (onSort a SortKey.TITLE).app SortKey.TITLE).app.state.isSortReverse = true) ∧
      ((onSort (onSort (onSort a SortKey.TITLE).app SortKey.TITLE).app
          SortKey.AUTHOR).app.state.sortKey = SortKey.AUTHOR ∧
        (onSort (onSort (onSort a SortKey.TITLE).app SortKey.TITLE).app
          SortKey.AUTHOR).app.state.isSortReverse = false)) := by
  refine ⟨rfl, ?_, ?_, rfl, rfl, rfl, rfl, rfl, rfl, rfl, rfl, ?_⟩
  · intro h
    simp [onSort, h]
  · intro h
    simp [onSort, h]
  · intro hk hr
    simp [onSort, hk, hr]

/-- C6 at the state set by the constructor, where the sort selection is `(NONE, false)`. -/
theorem onSort_toggle_witness :
    App.constructor.state.sortKey = SortKey.NONE ∧
    App.constructor.state.isSortReverse = false ∧
    (onSort (onSort App.constructor SortKey.TITLE).app SortKey.TITLE).app.state.sortKey =
      SortKey.TITLE ∧
    (onSort (onSort App.constructor SortKey.TITLE).app
      SortKey.TITLE).app.state.isSortReverse = true ∧
    (onSort (onSort App.constructor SortKey.TITLE).app
      SortKey.AUTHOR).app.state.isSortReverse = false :=
  ⟨rfl, rfl,
    ((onSort_toggle App.constructor SortKey.TITLE).2.2.2.2.2.2.2.2.2.2.2 rfl rfl).2.1.1,
    ((onSort_toggle App.constructor SortKey.TITLE).2.2.2.2.2.2.2.2.2.2.2 rfl rfl).2.1.2,
    (onSort_toggle (onSort App.constructor SortKey.TITLE).app SortKey.AUTHOR).2.2.1
      (by decide)⟩

/-- C9: once `componentWillUnmount` has run, the failure continuation of a fetch leaves
the whole instance, `error` included, as it was; on an instance that is still mounted it
sets `error` to the transport error and changes nothing else. -/
theorem fetchRejected_guard (a : App) (e : JsError) :
    fetchRejected (componentWillUnmount a) e = componentWillUnmount a ∧
    (a._isMounted = false → fetchRejected a e = a) ∧
    (a._isMounted = true →
      (fetchRejected a e).state.error = some e ∧
      (fetchRejected a e).state.results = a.state.results ∧
      (fetchRejected a e).state.searchKey = a.state.searchKey ∧
      (fetchRejected a e).state.searchTerm = a.state.searchTerm ∧
      (fetchRejected a e).state.isLoading = a.state.isLoading ∧
      (fetchRejected a e).state.sortKey = a.state.sortKey ∧
      (fetchRejected a e).state.isSortReverse = a.state.isSortReverse ∧
      (fetchRejected a e)._isMounted = true) := by
  refine ⟨rfl, ?_, ?_⟩
  · intro h
    simp [fetchRejected, h]
  · intro h
    simp [fetchRejected, h]

/-- C9 on the mounted instance (the failure is recorded) and on the instance before it
is mounted (nothing changes). -/
theorem fetchRejected_guard_witness :
    (componentDidMount App.constructor).app._isMounted = true ∧
    (fetchRejected (componentDidMount App.constructor).app
      { message := "Network Error" }).state.error = some { message := "Network Error" } ∧
    App.constructor._isMounted = false ∧
    fetchRejected App.constructor { message := "Network Error" } = App.constructor :=
  ⟨rfl,
    ((fetchRejected_guard (componentDidMount App.constructor).app
      { message := "Network Error" }).2.2 rfl).1,
    rfl,
    (fetchRejected_guard App.constructor { message := "Network Error" }).2.1 rfl⟩

/-- C5, as stated, fails: on the state set by the constructor (cache `null`), and on the
state left by submitting a term that is not cached (no entry for the active key),
`onDismiss` throws a `TypeError`. -/
theorem onDismiss_no_entry_counterexample :
    lookup App.constructor.state.results App.constructor.state.searchKey = none ∧
    (onDismiss App.constructor "1").thrown = some JsException.TypeError ∧
    lookup (submitSearch (appWithEntry "redux" { hits := [], page := 0 })
        "react").app.state.results
      (submitSearch (appWithEntry "redux" { hits := [], page := 0 })
        "react").app.state.searchKey = none ∧
    (onDismiss (submitSearch (appWithEntry "redux" { hits := [], page := 0 }) "react").app
      "1").thrown = some JsException.TypeError := by
  refine ⟨rfl, rfl, ?_, ?_⟩
  · simp [lookup, submitSearch, onSearchSubmit, onSearchChange, needsToSearchTopStories,
      fetchSearchTopStories, appWithEntry, setEntry, spread, getProperty, inheritedNames]
  · simp [onDismiss, submitSearch, onSearchSubmit, onSearchChange, needsToSearchTopStories,
      fetchSearchTopStories, appWithEntry, setEntry, spread, getProperty, inheritedNames]

/-- C5, amended: when the cache has no entry for the active key (the cache still `null`
included), `render` shows the failure message or a table without rows, so the page
delivers no click on Dismiss, whatever the identifier; and `onDismiss` called in such a
state makes no state update: the instance, its state and its cache are unchanged and no
request is issued. -/
theorem onDismiss_no_entry (a : App) (id : String)
    (h : lookup a.state.results a.state.searchKey = none) :
    ((render a).view = View.failure ∨ (render a).view = View.table []) ∧
    offered a (Event.dismiss id) = false ∧
    (onDismiss a id).app = a ∧
    (onDismiss a id).requests = [] := by
  have hview : (render a).view = View.failure ∨ (render a).view = View.table [] := by
    cases he : a.state.error with
    | some e => left; simp [render, he]
    | none => right; simp [render, he, h, Table_nil_rows]
  refine ⟨hview, ?_, ?_, ?_⟩
  · rcases hview with hv | hv <;> simp [offered, hv]
  · unfold onDismiss
    cases hr : a.state.results with
    | none => rfl
    | some r =>
      rw [hr] at h
      simp only [lookup] at h
      simp [h]
  · unfold onDismiss
    cases hr : a.state.results with
    | none => rfl
    | some r =>
      rw [hr] at h
      simp only [lookup] at h
      simp [h]

/-- C5, amended, at the state set by the constructor and once it is mounted. -/
theorem onDismiss_no_entry_witness :
    lookup (componentDidMount App.constructor).app.state.results
      (componentDidMount App.constructor).app.state.searchKey = none ∧
    (render (componentDidMount App.constructor).app).view = View.table [] ∧
    offered (componentDidMount App.constructor).app (Event.dismiss "1") = false ∧
    (onDismiss (componentDidMount App.constructor).app "1").app =
      (componentDidMount App.constructor).app :=
  ⟨rfl, rfl,
    (onDismiss_no_entry (componentDidMount App.constructor).app "1" rfl).2.1,
    (onDismiss_no_entry (componentDidMount App.constructor).app "1" rfl).2.2.1⟩

/-- C4, as stated, fails: when two hits of the entry carry the identifier (here `A`, `B`,
`A` again, as after the same page was appended twice), `onDismiss` removes both, not
exactly one. -/
theorem onDismiss_duplicate_counterexample :
    lookup (appWithEntry "redux"
      { hits := [hitWith "A" 0 1, hitWith "B" 0 2, hitWith "A" 0 1], page := 0 }).state.results
      "redux" =
      some { hits := [hitWith "A" 0 1, hitWith "B" 0 2, hitWith "A" 0 1], page := 0 } ∧
    lookup (onDismiss (appWithEntry "redux"
      { hits := [hitWith "A" 0 1, hitWith "B" 0 2, hitWith "A" 0 1], page := 0 })
      "A").app.state.results "redux" = some { hits := [hitWith "B" 0 2], page := 0 } := by
  refine ⟨?_, ?_⟩
  · simp [appWithEntry, lookup_setEntry_same]
  · simp [onDismiss, appWithEntry, setEntry, lookup]
    decide

/-- C4, amended: when the cache has an entry for the active key, `onDismiss` with
identifier `id` throws nothing, issues no request and replaces the hits of that entry by
those whose `objectID` differs from `id`, in their order: every hit with that identifier
is removed, which is exactly one hit when the identifier occurs once in the entry, and
none when no hit carries it.  The page of the entry, the other entries and the other
fields of the state are unchanged. -/
theorem onDismiss_entry (a : App) (id : String) (entry : ResultPage)
    (h : lookup a.state.results a.state.searchKey = some entry) :
    (onDismiss a id).thrown = none ∧
    (onDismiss a id).requests = [] ∧
    lookup (onDismiss a id).app.state.results a.state.searchKey =
      some { hits := entry.hits.filter (fun item => item.objectID != id),
             page := entry.page } ∧
    (entry.hits.filter (fun item => item.objectID != id)).Sublist entry.hits ∧
    (∀ x, x ∈ entry.hits.filter (fun item => item.objectID != id) ↔
      x ∈ entry.hits ∧ x.objectID ≠ id) ∧
    (∀ (before after : List Hit) (x : Hit), entry.hits = before ++ x :: after →
      x.objectID = id → (∀ y ∈ before ++ after, y.objectID ≠ id) →
      entry.hits.filter (fun item => item.objectID != id) = before ++ after) ∧
    ((∀ y ∈ entry.hits, y.objectID ≠ id) →
      entry.hits.filter (fun item => item.objectID != id) = entry.hits) ∧
    (∀ k, k ≠ a.state.searchKey →
      lookup (onDismiss a id).app.state.results k = lookup a.state.results k) ∧
    (onDismiss a id).app.state.searchKey = a.state.searchKey ∧
    (onDismiss a id).app.state.searchTerm = a.state.searchTerm ∧
    (onDismiss a id).app.state.error = a.state.error ∧
    (onDismiss a id).app.state.isLoading = a.state.isLoading ∧
    (onDismiss a id).app.state.sortKey = a.state.sortKey ∧
    (onDismiss a id).app.state.isSortReverse = a.state.isSortReverse ∧
    (onDismiss a id).app._isMounted = a._isMounted := by
  cases hr : a.state.results with
  | none => rw [hr] at h; simp [lookup] at h
  | some r =>
    rw [hr] at h
    have hk : r a.state.searchKey = some entry := h
    have hd : onDismiss a id =
        { app := { a with state := { a.state with
                    results := some (setEntry (some r) a.state.searchKey
                      { hits := entry.hits.filter (fun item => item.objectID != id),
                        page := entry.page }) } }
          requests := []
          thrown := none } := by
      simp only [onDismiss, hr, hk]
    rw [hd]
    refine ⟨rfl, rfl, lookup_setEntry_same _ _ _, List.filter_sublist _, ?_, ?_, ?_, ?_,
      rfl, rfl, rfl, rfl, rfl, rfl, rfl⟩
    · intro x
      simp [List.mem_filter]
    · intro before after x hsplit hx hrest
      rw [hsplit, List.filter_append, List.filter_cons]
      have hxf : (x.objectID != id) = false := by simp [hx]
      rw [hxf]
      simp only [Bool.false_eq_true, if_false]
      rw [← List.filter_append]
      apply List.filter_eq_self.2
      intro y hy
      simpa using hrest y hy
    · intro hnone
      apply List.filter_eq_self.2
      intro y hy
      simpa using hnone y hy
    · intro k hne
      exact lookup_setEntry_other _ _ _ _ hne

/-- C4, amended, on the entry `[A, B, C]`: dismissing `B` leaves `[A, C]`, and dismissing
an identifier no hit carries leaves `[A, B, C]`. -/
theorem onDismiss_entry_witness :
    lookup (appWithEntry "redux"
        { hits := [hitWith "A" 0 1, hitWith "B" 0 2, hitWith "C" 0 3],
          page := 4 }).state.results
      (appWithEntry "redux"
        { hits := [hitWith "A" 0 1, hitWith "B" 0 2, hitWith "C" 0 3],
          page := 4 }).state.searchKey =
      some { hits := [hitWith "A" 0 1, hitWith "B" 0 2, hitWith "C" 0 3], page := 4 } ∧
    lookup (onDismiss (appWithEntry "redux"
        { hits := [hitWith "A" 0 1, hitWith "B" 0 2, hitWith "C" 0 3], page := 4 })
        "B").app.state.results "redux" =
      some { hits := [hitWith "A" 0 1, hitWith "C" 0 3], page := 4 } ∧
    lookup (onDismiss (appWithEntry "redux"
        { hits := [hitWith "A" 0 1, hitWith "B" 0 2, hitWith "C" 0 3], page := 4 })
        "D").app.state.results "redux" =
      some { hits := [hitWith "A" 0 1, hitWith "B" 0 2, hitWith "C" 0 3], page := 4 } :=
  have h : lookup (appWithEntry "redux"
        { hits := [hitWith "A" 0 1, hitWith "B" 0 2, hitWith "C" 0 3],
          page := 4 }).state.results
      (appWithEntry "redux"
        { hits := [hitWith "A" 0 1, hitWith "B" 0 2, hitWith "C" 0 3],
          page := 4 }).state.searchKey =
      some { hits := [hitWith "A" 0 1, hitWith "B" 0 2, hitWith "C" 0 3], page := 4 } :=
    lookup_setEntry_same _ _ _
  ⟨h, (onDismiss_entry _ "B" _ h).2.2.1.trans (by decide),
    (onDismiss_entry _ "D" _ h).2.2.1.trans (by decide)⟩

/-- C1, as stated, fails: with `redux` cached and active, More requests page 1 of `redux`;
the user then submits `react`; when the response to the request for `redux` arrives, its
hits are written under `react`, the active key, and the entry of `redux`, the fetched
term, keeps its old hits and page. -/
theorem fetch_other_key_counterexample :
    (onMore (appWithEntry "redux" { hits := [hitWith "A" 0 1], page := 0 })).requests =
      [{ searchTerm := "redux", page := 1 }] ∧
    (submitSearch (onMore (appWithEntry "redux"
      { hits := [hitWith "A" 0 1], page := 0 })).app "react").app.state.searchKey = "react" ∧
    lookup (fetchResolved (submitSearch (onMore (appWithEntry "redux"
      { hits := [hitWith "A" 0 1], page := 0 })).app "react").app
      { hits := [hitWith "B" 0 2], page := 1 }).state.results "redux" =
      some { hits := [hitWith "A" 0 1], page := 0 } ∧
    lookup (fetchResolved (submitSearch (onMore (appWithEntry "redux"
      { hits := [hitWith "A" 0 1], page := 0 })).app "react").app
      { hits := [hitWith "B" 0 2], page := 1 }).state.results "react" =
      some { hits := [hitWith "B" 0 2], page := 1 } := by
  refine ⟨?_, ?_, ?_, ?_⟩
  · simp [onMore, fetchSearchTopStories, renderPage, appWithEntry, lookup, setEntry]
  · simp [submitSearch, onSearchSubmit, onSearchChange, needsToSearchTopStories, onMore,
      fetchSearchTopStories, appWithEntry, setEntry, spread, getProperty, inheritedNames]
  · simp [fetchResolved, setSearchTopStories, submitSearch, onSearchSubmit, onSearchChange,
      needsToSearchTopStories, onMore, fetchSearchTopStories, appWithEntry, setEntry,
      spread, lookup, getProperty, inheritedNames]
  · simp [fetchResolved, setSearchTopStories, submitSearch, onSearchSubmit, onSearchChange,
      needsToSearchTopStories, onMore, fetchSearchTopStories, appWithEntry, setEntry,
      spread, lookup, getProperty, inheritedNames]

/-- C1, amended: on a mounted instance whose active cache key `searchKey` does not read
an inherited member of the cache, `fetchSearchTopStories` for `term` and `page` issues
one request for them, and its success continuation on the response `result` writes the
entry keyed by the active cache key as it is when the response arrives: that entry has
the hits cached under that key before (none if there was no entry) followed by the
returned hits in their order, and the returned page; `isLoading` is false and the other
entries are unchanged.  When the active key is the fetched term this is the entry of the
term; from a cache with no entry for the term, pages 0 and 1 fetched in turn give the
hits of the first response followed by those of the second, and the page of the second. -/
theorem fetchPage_active_key (a : App) (term : String) (page : Nat) (result : ResultPage)
    (hm : a._isMounted = true) (hk : readsInherited a.state = false) :
    (fetchSearchTopStories a term page).requests = [{ searchTerm := term, page := page }] ∧
    lookup (fetchPage a term page result).state.results a.state.searchKey =
      some { hits := cachedHits a.state a.state.searchKey ++ result.hits,
             page := result.page } ∧
    (fetchPage a term page result).state.isLoading = false ∧
    (∀ k, k ≠ a.state.searchKey →
      lookup (fetchPage a term page result).state.results k = lookup a.state.results k) ∧
    (a.state.searchKey = term →
      lookup (fetchPage a term page result).state.results term =
        some { hits := cachedHits a.state term ++ result.hits, page := result.page }) ∧
    (a.state.searchKey = term → lookup a.state.results term = none →
      ∀ next : ResultPage,
        lookup (fetchPage (fetchPage a term 0 result) term 1 next).state.results term =
          some { hits := result.hits ++ next.hits, page := next.page }) := by
  have key : ∀ (b : App) (t : String) (p : Nat) (r : ResultPage), b._isMounted = true →
      readsInherited b.state = false →
      lookup (fetchPage b t p r).state.results b.state.searchKey =
        some { hits := cachedHits b.state b.state.searchKey ++ r.hits, page := r.page } := by
    intro b t p r hb hi
    rw [fetchPage_eq b t p r hb hi]
    exact lookup_setEntry_same _ _ _
  refine ⟨rfl, key a term page result hm hk, ?_, ?_, ?_, ?_⟩
  · rw [fetchPage_eq a term page result hm hk]
  · intro k hne
    rw [fetchPage_eq a term page result hm hk]
    exact lookup_setEntry_other _ _ _ _ hne
  · intro hterm
    have h := key a term page result hm hk
    rw [hterm] at h
    exact h
  · intro hterm hnone next
    have h1 := key a term 0 result hm hk
    rw [hterm] at h1
    have hkey : (fetchPage a term 0 result).state.searchKey = term := by
      rw [fetchPage_eq a term 0 result hm hk]
      exact hterm
    have hm1 : (fetchPage a term 0 result)._isMounted = true := by
      rw [fetchPage_eq a term 0 result hm hk]
      exact hm
    have hi1 : readsInherited (fetchPage a term 0 result).state = false := by
      have hl : lookup (fetchPage a term 0 result).state.results
          (fetchPage a term 0 result).state.searchKey = some
            { hits := cachedHits a.state term ++ result.hits, page := result.page } := by
        rw [hkey]
        exact h1
      unfold readsInherited
      cases hr : (fetchPage a term 0 result).state.results with
      | none => rfl
      | some r =>
        rw [hr] at hl
        simp only [lookup] at hl
        simp [getProperty, hl]
    have h2 := key (fetchPage a term 0 result) term 1 next hm1 hi1
    rw [hkey] at h2
    rw [h2]
    have hc : cachedHits (fetchPage a term 0 result).state term =
        cachedHits a.state term ++ result.hits := by
      simp only [cachedHits, h1]
    have h0 : cachedHits a.state term = [] := by
      simp only [cachedHits, hnone]
    rw [hc, h0, List.nil_append]

/-- C1, amended, from the state after `componentDidMount` (cache `null`, active key
`redux`): pages 0 and 1 of `redux` give the hits of both, in order, and page 1. -/
theorem fetchPage_active_key_witness :
    (componentDidMount App.constructor).app._isMounted = true ∧
    readsInherited (componentDidMount App.constructor).app.state = false ∧
    (componentDidMount App.constructor).app.state.searchKey = "redux" ∧
    lookup (componentDidMount App.constructor).app.state.results "redux" = none ∧
    lookup (fetchPage (fetchPage (componentDidMount App.constructor).app "redux" 0
      { hits := [hitWith "A" 0 1], page := 0 }) "redux" 1
      { hits := [hitWith "B" 0 2], page := 1 }).state.results "redux" =
      some { hits := [hitWith "A" 0 1] ++ [hitWith "B" 0 2], page := 1 } :=
  ⟨rfl, rfl, rfl, rfl,
    (fetchPage_active_key (componentDidMount App.constructor).app "redux" 0
      { hits := [hitWith "A" 0 1], page := 0 } rfl rfl).2.2.2.2.2 rfl rfl
      { hits := [hitWith "B" 0 2], page := 1 }⟩

/-- C3, as stated, fails: with `redux` cached, submitting `react` twice in a row, the
response to the first request not yet arrived, issues the request for page 0 of `react`
twice. -/
theorem submitSearch_twice_counterexample :
    (submitSearch (appWithEntry "redux" { hits := [], page := 0 }) "react").requests =
      [{ searchTerm := "react", page := 0 }] ∧
    (submitSearch (submitSearch (appWithEntry "redux" { hits := [], page := 0 })
      "react").app "react").requests = [{ searchTerm := "react", page := 0 }] := by
  refine ⟨?_, ?_⟩ <;>
    simp [submitSearch, onSearchSubmit, onSearchChange, needsToSearchTopStories,
      fetchSearchTopStories, appWithEntry, setEntry, spread, getProperty, inheritedNames]

/-- C3, amended: `submitSearch(term)` issues at most one request, and when the request
it issued, if any, has been answered successfully before `submitSearch(term)` is called
again, the second call issues none: at most one fetch in total.  With no response in
between, the second call issues the same requests as the first. -/
theorem submitSearch_twice (a : App) (term : String) (result : ResultPage) :
    (submitSearch a term).requests.length ≤ 1 ∧
    (submitSearch (deliver (submitSearch a term) result) term).requests = [] ∧
    (submitSearch (submitSearch a term).app term).requests = (submitSearch a term).requests := by
  cases hr : a.state.results with
  | none =>
    simp [submitSearch, deliver, onSearchSubmit, onSearchChange, needsToSearchTopStories, hr]
  | some r =>
    cases hk : r term with
    | none =>
      by_cases hin : term ∈ inheritedNames
      · simp [submitSearch, deliver, onSearchSubmit, onSearchChange,
          needsToSearchTopStories, getProperty, hr, hk, hin]
      · simp [submitSearch, deliver, fetchResolved, setSearchTopStories, onSearchSubmit,
          onSearchChange, needsToSearchTopStories, fetchSearchTopStories, setEntry,
          getProperty, hr, hk, hin]
    | some entry =>
      simp [submitSearch, deliver, onSearchSubmit, onSearchChange, needsToSearchTopStories,
        getProperty, hr, hk]

/-- C8, as stated, fails, on a session the page delivers: the first page of `redux`
arrives, the fetch started by More fails, so `error` is set, and the user searches
`react`; the response to that request is stored under `react` and clears `isLoading`, but
`error` stays set and `render` still shows the failure message. -/
theorem fetch_success_keeps_error_counterexample :
    offeredAll (componentDidMount App.constructor).app
      (failedMoreSession { message := "Network Error" } ++
        [Event.resolved { hits := [hitWith "B" 0 2], page := 0 }]) = true ∧
    (run (componentDidMount App.constructor).app
      (failedMoreSession { message := "Network Error" })).state.error =
      some { message := "Network Error" } ∧
    (run (componentDidMount App.constructor).app
      (failedMoreSession { message := "Network Error" } ++
        [Event.resolved { hits := [hitWith "B" 0 2], page := 0 }])).state.error =
      some { message := "Network Error" } ∧
    lookup (run (componentDidMount App.constructor).app
      (failedMoreSession { message := "Network Error" } ++
        [Event.resolved { hits := [hitWith "B" 0 2], page := 0 }])).state.results "react" =
      some { hits := [hitWith "B" 0 2], page := 0 } ∧
    (run (componentDidMount App.constructor).app
      (failedMoreSession { message := "Network Error" } ++
        [Event.resolved { hits := [hitWith "B" 0 2], page := 0 }])).state.isLoading =
      false ∧
    (render (run (componentDidMount App.constructor).app
      (failedMoreSession { message := "Network Error" } ++
        [Event.resolved { hits := [hitWith "B" 0 2], page := 0 }]))).view = View.failure := by
  refine ⟨?_, ?_, ?_, ?_, ?_, ?_⟩ <;>
    simp [offeredAll, offered, run, step, failedMoreSession, respond, fetchResolved,
      setSearchTopStories, fetchRejected, onMore, renderPage, onSearchSubmit,
      onSearchChange, needsToSearchTopStories, fetchSearchTopStories, componentDidMount,
      App.constructor, DEFAULT_QUERY, render, lookup, setEntry, spread, getProperty,
      inheritedNames]

/-- C8, amended: when `error` is set, on a mounted instance whose active key does not
read an inherited member of the cache, a successful fetch updates the cache entry of the
active key (the hits cached there followed by the returned ones, and the returned page)
and sets `isLoading` to false, but leaves `error` as it is, so `render` still shows the
failure message; no sequence of events clears `error`, and the failure message stays
for the rest of the session. -/
theorem fetch_success_keeps_error (a : App) (h : a.state.error ≠ none)
    (hm : a._isMounted = true) (hk : readsInherited a.state = false) :
    (∀ (term : String) (page : Nat) (result : ResultPage),
      lookup (fetchPage a term page result).state.results a.state.searchKey =
        some { hits := cachedHits a.state a.state.searchKey ++ result.hits,
               page := result.page } ∧
      (fetchPage a term page result).state.isLoading = false ∧
      (fetchPage a term page result).state.error = a.state.error ∧
      (render (fetchPage a term page result)).view = View.failure) ∧
    (∀ events : List Event,
      (run a events).state.error ≠ none ∧ (render (run a events)).view = View.failure) := by
  refine ⟨fun term page result => ?_, fun events =>
    ⟨run_error events a h, render_error _ (run_error events a h)⟩⟩
  have he : (fetchPage a term page result).state.error = a.state.error := by
    rw [fetchPage_eq a term page result hm hk]
  refine ⟨?_, ?_, he, render_error _ (by rw [he]; exact h)⟩
  · rw [fetchPage_eq a term page result hm hk]
    exact lookup_setEntry_same _ _ _
  · rw [fetchPage_eq a term page result hm hk]

/-- C8, amended, on the session of the counterexample once the response for `react` has
arrived: `isLoading` is false again, so the button More is there; the fetch it starts
for page 1 of `react`, answered successfully, extends the entry of `react`, and the
failure message stays. -/
theorem fetch_success_keeps_error_witness :
    (run (componentDidMount App.constructor).app
      (failedMoreSession { message := "Network Error" } ++
        [Event.resolved { hits := [hitWith "B" 0 2], page := 0 }])).state.error ≠ none ∧
    (run (componentDidMount App.constructor).app
      (failedMoreSession { message := "Network Error" } ++
        [Event.resolved { hits := [hitWith "B" 0 2], page := 0 }]))._isMounted = true ∧
    readsInherited (run (componentDidMount App.constructor).app
      (failedMoreSession { message := "Network Error" } ++
        [Event.resolved { hits := [hitWith "B" 0 2], page := 0 }])).state = false ∧
    (onMore (run (componentDidMount App.constructor).app
      (failedMoreSession { message := "Network Error" } ++
        [Event.resolved { hits := [hitWith "B" 0 2], page := 0 }]))).requests =
      [{ searchTerm := "react", page := 1 }] ∧
    (fetchPage (run (componentDidMount App.constructor).app
      (failedMoreSession { message := "Network Error" } ++
        [Event.resolved { hits := [hitWith "B" 0 2], page := 0 }])) "react" 1
      { hits := [hitWith "C" 0 3], page := 1 }).state.isLoading = false ∧
    (render (fetchPage (run (componentDidMount App.constructor).app
      (failedMoreSession { message := "Network Error" } ++
        [Event.resolved { hits := [hitWith "B" 0 2], page := 0 }])) "react" 1
      { hits := [hitWith "C" 0 3], page := 1 })).view = View.failure :=
  have h1 : (run (componentDidMount App.constructor).app
      (failedMoreSession { message := "Network Error" } ++
        [Event.resolved { hits := [hitWith "B" 0 2], page := 0 }])).state.error ≠ none := by
    simp [run, step, failedMoreSession, respond, fetchResolved,
      setSearchTopStories, fetchRejected, onMore, renderPage, onSearchSubmit,
      onSearchChange, needsToSearchTopStories, fetchSearchTopStories, componentDidMount,
      App.constructor, DEFAULT_QUERY, lookup, setEntry, spread, getProperty,
      inheritedNames]
  have h2 : (run (componentDidMount App.constructor).app
      (failedMoreSession { message := "Network Error" } ++
        [Event.resolved { hits := [hitWith "B" 0 2], page := 0 }]))._isMounted = true := by
    simp [run, step, failedMoreSession, respond, fetchResolved,
      setSearchTopStories, fetchRejected, onMore, renderPage, onSearchSubmit,
      onSearchChange, needsToSearchTopStories, fetchSearchTopStories, componentDidMount,
      App.constructor, DEFAULT_QUERY, lookup, setEntry, spread, getProperty,
      inheritedNames]
  have h3 : readsInherited (run (componentDidMount App.constructor).app
      (failedMoreSession { message := "Network Error" } ++
        [Event.resolved { hits := [hitWith "B" 0 2], page := 0 }])).state = false := by
    simp [readsInherited, run, step, failedMoreSession, respond, fetchResolved,
      setSearchTopStories, fetchRejected, onMore, renderPage, onSearchSubmit,
      onSearchChange, needsToSearchTopStories, fetchSearchTopStories, componentDidMount,
      App.constructor, DEFAULT_QUERY, lookup, setEntry, spread, getProperty,
      inheritedNames]
  have h4 : (onMore (run (componentDidMount App.constructor).app
      (failedMoreSession { message := "Network Error" } ++
        [Event.resolved { hits := [hitWith "B" 0 2], page := 0 }]))).requests =
      [{ searchTerm := "react", page := 1 }] := by
    simp [run, step, failedMoreSession, respond, fetchResolved,
      setSearchTopStories, fetchRejected, onMore, renderPage, onSearchSubmit,
      onSearchChange, needsToSearchTopStories, fetchSearchTopStories, componentDidMount,
      App.constructor, DEFAULT_QUERY, lookup, setEntry, spread, getProperty,
      inheritedNames]
  ⟨h1, h2, h3, h4,
    ((fetch_success_keeps_error _ h1 h2 h3).1 "react" 1
      { hits := [hitWith "C" 0 3], page := 1 }).2.1,
    ((fetch_success_keeps_error _ h1 h2 h3).1 "react" 1
      { hits := [hitWith "C" 0 3], page := 1 }).2.2.2⟩

/-- C2 on the code: in the state set by the constructor, in the state after
`componentDidMount` while the first response is awaited, and in the state after the first
fetch has failed, the cache is `null`, and `submitSearch` of any term throws a
`TypeError` and issues no request, although the cache has no entry for the term. -/
theorem submitSearch_null_cache_throws :
    (∀ term : String,
      lookup App.constructor.state.results term = none ∧
      (submitSearch App.constructor term).thrown = some JsException.TypeError ∧
      (submitSearch App.constructor term).requests = []) ∧
    (∀ term : String,
      lookup (componentDidMount App.constructor).app.state.results term = none ∧
      (submitSearch (componentDidMount App.constructor).app term).thrown =
        some JsException.TypeError ∧
      (submitSearch (componentDidMount App.constructor).app term).requests = []) ∧
    (∀ (term : String) (e : JsError),
      lookup (fetchRejected (componentDidMount App.constructor).app e).state.results term =
        none ∧
      (submitSearch (fetchRejected (componentDidMount App.constructor).app e) term).thrown =
        some JsException.TypeError ∧
      (submitSearch (fetchRejected (componentDidMount App.constructor).app e)
        term).requests = []) :=
  ⟨fun _ => ⟨rfl, rfl, rfl⟩, fun _ => ⟨rfl, rfl, rfl⟩, fun _ _ => ⟨rfl, rfl, rfl⟩⟩

/-- C10, as stated, fails at the sort key `NONE` with `isSortReverse` true: `SORTS.NONE`
returns the array it received, the array of the cache entry, and `Table` reverses it in
place: for the entry `[A, B]` the rows are `[B, A]`, the entry holds `[B, A]`
afterwards, and projecting once more gives the rows `[A, B]`. -/
theorem Table_NONE_reverse_counterexample :
    lookup (withSort (appWithEntry "redux"
        { hits := [hitWith "A" 0 1, hitWith "B" 0 2], page := 0 })
        SortKey.NONE true).state.results "redux" =
      some { hits := [hitWith "A" 0 1, hitWith "B" 0 2], page := 0 } ∧
    (Table [hitWith "A" 0 1, hitWith "B" 0 2] SortKey.NONE true).rows =
      [hitWith "B" 0 2, hitWith "A" 0 1] ∧
    (Table [hitWith "A" 0 1, hitWith "B" 0 2] SortKey.NONE true).list =
      [hitWith "B" 0 2, hitWith "A" 0 1] ∧
    (render (withSort (appWithEntry "redux"
        { hits := [hitWith "A" 0 1, hitWith "B" 0 2], page := 0 })
        SortKey.NONE true)).view = View.table [hitWith "B" 0 2, hitWith "A" 0 1] ∧
    lookup (render (withSort (appWithEntry "redux"
        { hits := [hitWith "A" 0 1, hitWith "B" 0 2], page := 0 })
        SortKey.NONE true)).app.state.results "redux" =
      some { hits := [hitWith "B" 0 2, hitWith "A" 0 1], page := 0 } ∧
    (render (render (withSort (appWithEntry "redux"
        { hits := [hitWith "A" 0 1, hitWith "B" 0 2], page := 0 })
        SortKey.NONE true)).app).view = View.table [hitWith "A" 0 1, hitWith "B" 0 2] := by
  refine ⟨?_, rfl, rfl, ?_, ?_, ?_⟩ <;>
    simp [render, Table, SORTS, withSort, appWithEntry, lookup, setEntry, spread]

/-- C10, amended: for every sort selection other than the key `NONE` with `isSortReverse`
true, `render` with the sort/reverse step of `Table` leaves every entry of the cache and
every other field of the state as they were, and projecting again gives the same view;
and in every instance the page reaches the sort selection is such a one, the Sort buttons
never passing `NONE`, so there the cache is the same after projecting as before. -/
theorem render_keeps_cache (a : App) :
    ((a.state.sortKey ≠ SortKey.NONE ∨ a.state.isSortReverse = false) →
      (∀ k, lookup (render a).app.state.results k = lookup a.state.results k) ∧
      (render a).app.state.searchKey = a.state.searchKey ∧
      (render a).app.state.searchTerm = a.state.searchTerm ∧
      (render a).app.state.error = a.state.error ∧
      (render a).app.state.isLoading = a.state.isLoading ∧
      (render a).app.state.sortKey = a.state.sortKey ∧
      (render a).app.state.isSortReverse = a.state.isSortReverse ∧
      (render (render a).app).view = (render a).view) ∧
    (Reachable a →
      (a.state.sortKey ≠ SortKey.NONE ∨ a.state.isSortReverse = false) ∧
      (∀ k, lookup (render a).app.state.results k = lookup a.state.results k) ∧
      (render (render a).app).view = (render a).view) := by
  have main : (a.state.sortKey ≠ SortKey.NONE ∨ a.state.isSortReverse = false) →
      (∀ k, lookup (render a).app.state.results k = lookup a.state.results k) ∧
      (render a).app.state.searchKey = a.state.searchKey ∧
      (render a).app.state.searchTerm = a.state.searchTerm ∧
      (render a).app.state.error = a.state.error ∧
      (render a).app.state.isLoading = a.state.isLoading ∧
      (render a).app.state.sortKey = a.state.sortKey ∧
      (render a).app.state.isSortReverse = a.state.isSortReverse ∧
      (render (render a).app).view = (render a).view := by
    intro hsel
    cases he : a.state.error with
    | some e =>
      have hr : render a = { view := View.failure, app := a } := by simp [render, he]
      rw [hr]
      simp [he, hr]
    | none =>
      cases hl : lookup a.state.results a.state.searchKey with
      | none =>
        have hr : render a =
            { view := View.table (Table [] a.state.sortKey a.state.isSortReverse).rows,
              app := a } := by
          simp [render, he, hl]
        rw [hr]
        simp [he, hr]
      | some entry =>
        have hlist := Table_list_unchanged entry.hits a.state.sortKey a.state.isSortReverse hsel
        have hr : render a =
            { view := View.table (Table entry.hits a.state.sortKey a.state.isSortReverse).rows,
              app := { a with state := { a.state with
                results := some (setEntry a.state.results a.state.searchKey entry) } } } := by
          simp [render, he, hl, hlist]
        rw [hr]
        refine ⟨?_, rfl, rfl, he, rfl, rfl, rfl, ?_⟩
        · intro k
          by_cases hk : k = a.state.searchKey
          · rw [hk, hl]
            exact lookup_setEntry_same _ _ _
          · exact lookup_setEntry_other _ _ _ _ hk
        · simp [render, he, lookup_setEntry_same, hlist]
  refine ⟨main, fun hreach => ?_⟩
  have hsel : a.state.sortKey ≠ SortKey.NONE ∨ a.state.isSortReverse = false := by
    by_cases hk : a.state.sortKey = SortKey.NONE
    · exact Or.inr (reachable_sort a hreach hk)
    · exact Or.inl hk
  exact ⟨hsel, (main hsel).1, (main hsel).2.2.2.2.2.2.2⟩

/-- C10, amended, on a session the page delivers: with the hits `A`, `B` cached and the
points sorted and reversed, the rows are `[A, B]` and the entry is unchanged. -/
theorem render_keeps_cache_witness :
    Reachable (run (componentDidMount App.constructor).app sortedSession) ∧
    (run (componentDidMount App.constructor).app sortedSession).state.sortKey =
      SortKey.POINTS ∧
    (run (componentDidMount App.constructor).app sortedSession).state.isSortReverse = true ∧
    lookup (render (run (componentDidMount App.constructor).app
      sortedSession)).app.state.results "redux" =
      lookup (run (componentDidMount App.constructor).app sortedSession).state.results
        "redux" ∧
    (render (render (run (componentDidMount App.constructor).app sortedSession)).app).view =
      (render (run (componentDidMount App.constructor).app sortedSession)).view :=
  have hoff : offeredAll (componentDidMount App.constructor).app sortedSession = true := by
    simp [offeredAll, offered, run, step, sortedSession, respond, fetchResolved,
      setSearchTopStories, onSort, fetchSearchTopStories, componentDidMount,
      App.constructor, DEFAULT_QUERY, render, lookup, setEntry, spread, getProperty,
      inheritedNames]
  have hreach : Reachable (run (componentDidMount App.constructor).app sortedSession) :=
    reachable_run sortedSession _ Reachable.mounted hoff
  have hk : (run (componentDidMount App.constructor).app sortedSession).state.sortKey =
      SortKey.POINTS := by
    simp [run, step, sortedSession, respond, fetchResolved,
      setSearchTopStories, onSort, fetchSearchTopStories, componentDidMount,
      App.constructor, DEFAULT_QUERY, lookup, setEntry, spread, getProperty,
      inheritedNames]
  have hrev : (run (componentDidMount App.constructor).app
      sortedSession).state.isSortReverse = true := by
    simp [run, step, sortedSession, respond, fetchResolved,
      setSearchTopStories, onSort, fetchSearchTopStories, componentDidMount,
      App.constructor, DEFAULT_QUERY, lookup, setEntry, spread, getProperty,
      inheritedNames]
  ⟨hreach, hk, hrev,
    ((render_keeps_cache _).2 hreach).2.1 "redux",
    ((render_keeps_cache _).2 hreach).2.2⟩

end SimpleReactApp
